import Mathlib

/-!
Verification development for the Klipper-Adaptive-Flow motion-stream
telemetry engine.  The definitions below are a shallow embedding of
src/extruder_monitor.py and src/gcode_interceptor.py: Python floats are
modelled as rationals, wall-clock time (time.time()) is an explicit
parameter, and fallible callbacks are modelled with Except.
-/

namespace AdaptiveFlow

/-- A lookahead entry, mirroring the tuples `(e_delta_mm, duration_s,
timestamp)` stored in `ExtruderMonitor._lookahead`. -/
structure Segment where
  e : ℚ
  d : ℚ
  ts : ℚ
deriving DecidableEq

/-- The 5-second rate window (`max_age = 5.0` in
`_predicted_extrusion_rate`). -/
def maxAge : ℚ := 5

/-- `ExtruderMonitor.add_lookahead_segment`: segments with non-positive
duration are silently dropped; otherwise the segment is appended. -/
def addLookaheadSegment (q : List Segment) (e d now : ℚ) : List Segment :=
  if d ≤ 0 then q else q ++ [⟨e, d, now⟩]

/-- `ExtruderMonitor.clear_lookahead`. -/
def clearLookahead (_q : List Segment) : List Segment := []

/-- The eviction test `(now - ts) > max_age` used by the front-eviction
loop in `_predicted_extrusion_rate`. -/
def segExpired (now : ℚ) (s : Segment) : Bool := decide (maxAge < now - s.ts)

/-- The inclusion test `(now - ts) <= max_age` used by the summation loop
in `_predicted_extrusion_rate`. -/
def segLive (now : ℚ) (s : Segment) : Bool := decide (now - s.ts ≤ maxAge)

/-- The `while` loop popping expired entries from the front of the deque. -/
def evictExpired (now : ℚ) (q : List Segment) : List Segment :=
  q.dropWhile (segExpired now)

/-- The per-segment duration clamp `max(1e-6, float(d))` in the totals
loop of `_predicted_extrusion_rate`. -/
def durClamp (d : ℚ) : ℚ := max (1 / 1000000) d

/-- The accumulation loop of `_predicted_extrusion_rate`:
`total_e += abs(e)` and `total_t += max(1e-6, d)` for live entries. -/
def rateTotals (now : ℚ) (q : List Segment) : ℚ × ℚ :=
  q.foldl
    (fun t s => if now - s.ts ≤ maxAge then (t.1 + |s.e|, t.2 + durClamp s.d) else t)
    (0, 0)

/-- `ExtruderMonitor._predicted_extrusion_rate`: evict expired entries
from the front, total the live entries, return `0.0` when the total
duration is non-positive.  The function both returns the rate and leaves
the queue in its evicted state, exactly as the Python method mutates
`self._lookahead`. -/
def predictedExtrusionRate (now : ℚ) (q : List Segment) : ℚ × List Segment :=
  let q2 := evictExpired now q
  let t := rateTotals now q2
  (if t.2 ≤ 0 then 0 else t.1 / t.2, q2)

/-- The rate predictor as the specification words it (spec section 4.3):
sum the raw `|extrudedMM|` and `durationS` over the non-expired segments
and divide, with `0.0` when no segments remain or the total duration is
non-positive.  This definition follows the spec text, for comparison with
`predictedExtrusionRate` which follows the source. -/
def specPredictedRate (now : ℚ) (q : List Segment) : ℚ :=
  let live := q.filter (segLive now)
  let tot := (live.map Segment.d).sum
  if live.isEmpty ∨ tot ≤ 0 then 0 else ((live.map (fun s => |s.e|)).sum) / tot

/-- The parser/monitor state of `ExtruderMonitor`: the lookahead deque,
the bounded recent-rate history, per-axis positions, last E/F values and
the M82/M83 extrusion mode flag. -/
structure MonitorState where
  lookahead : List Segment
  recentRates : List ℚ
  posX : Option ℚ
  posY : Option ℚ
  posZ : Option ℚ
  lastE : Option ℚ
  lastF : Option ℚ
  relativeExtrusion : Bool
deriving DecidableEq

/-- The `__init__` values of the monitor state. -/
def initMonitor : MonitorState :=
  ⟨[], [], none, none, none, none, none, false⟩

/-- The dict built by the `finditer` loop in `_parse_gcode_move`:
one value per (upper-cased) letter, last occurrence wins. -/
def lookupParam (ps : List (Char × ℚ)) (c : Char) : Option ℚ :=
  ps.foldl (fun acc p => if p.1.toUpper = c then some p.2 else acc) none

/-- Appending to the `maxlen=20` deque `_recent_rates`: the oldest entry
is dropped from the front once the length exceeds 20. -/
def appendRate (rs : List ℚ) (r : ℚ) : List ℚ :=
  let rs2 := rs ++ [r]
  if 20 < rs2.length then rs2.drop (rs2.length - 20) else rs2

/-- The duration fallback `max(0.001, abs(delta_e) / 1.0)`. -/
def durFallback (deltaE : ℚ) : ℚ := max (1 / 1000) |deltaE|

/-- The duration estimate of `_parse_gcode_move`: `dist * 60.0 / feed`
when `if feed and dist > 0.0` holds (Python truthiness: the feed must be
present AND non-zero), otherwise the fallback. -/
def moveDuration (feed : Option ℚ) (dist deltaE : ℚ) : ℚ :=
  match feed with
  | some f => if f ≠ 0 ∧ 0 < dist then dist * 60 / f else durFallback deltaE
  | none => durFallback deltaE

/-- The extrusion-delta rule in `_parse_gcode_move`: in relative mode the
E value is the delta; otherwise it is `cur_e - last_e`, or the full value
when no previous E is known. -/
def extrusionDelta (relative : Bool) (lastE : Option ℚ) (e : ℚ) : ℚ :=
  if relative then e
  else
    match lastE with
    | none => e
    | some l => e - l

/-- A line reaching `_parse_gcode_move`: an M82/M83 mode command or a
G0/G1 move abstracted as its scanned letter/number parameter list. -/
inductive GLine where
  | m82 : GLine
  | m83 : GLine
  | move (ps : List (Char × ℚ)) : GLine

/-- One per-axis delta term: non-zero only when both the target
coordinate and the previously known position exist. -/
def axisDelta (coord old : Option ℚ) : ℚ :=
  match coord, old with
  | some c, some p => c - p
  | _, _ => 0

/-- The Euclidean distance computed by `_parse_gcode_move`.  The square
root `** 0.5` does not stay inside ℚ, so it is abstracted as the
parameter `sq`; theorems either hold for every `sq` or instantiate it on
perfect squares. -/
def moveDist (sq : ℚ → ℚ) (s : MonitorState) (ps : List (Char × ℚ)) : ℚ :=
  let cx := (lookupParam ps 'X').orElse (fun _ => s.posX)
  let cy := (lookupParam ps 'Y').orElse (fun _ => s.posY)
  let cz := (lookupParam ps 'Z').orElse (fun _ => s.posZ)
  let dx := axisDelta cx s.posX
  let dy := axisDelta cy s.posY
  let dz := axisDelta cz s.posZ
  sq (dx * dx + dy * dy + dz * dz)

/-- `ExtruderMonitor._parse_gcode_move`: M83/M82 toggle the relative
flag and return; a move computes the params dict, distance, extrusion
delta and duration, pushes a lookahead segment and a recent rate on
positive extrusion, then updates the stored position/feed/extrusion
state for the letters present in the line. -/
def parseGcodeMove (sq : ℚ → ℚ) (now : ℚ) (s : MonitorState) : GLine → MonitorState
  | GLine.m83 => { s with relativeExtrusion := true }
  | GLine.m82 => { s with relativeExtrusion := false }
  | GLine.move ps =>
    let curE := lookupParam ps 'E'
    let curF := lookupParam ps 'F'
    let dist := moveDist sq s ps
    let s1 :=
      match curE with
      | none => s
      | some e =>
        let deltaE := extrusionDelta s.relativeExtrusion s.lastE e
        let feed := curF.orElse (fun _ => s.lastF)
        let dur := moveDuration feed dist deltaE
        if 0 < deltaE then
          { s with
            lookahead := addLookaheadSegment s.lookahead deltaE dur now,
            recentRates := appendRate s.recentRates (|deltaE| / max (1 / 1000000) dur) }
        else s
    { s1 with
      lastE := match curE with | some e => some e | none => s1.lastE,
      lastF := match curF with | some f => some f | none => s1.lastF,
      posX := match lookupParam ps 'X' with | some v => some v | none => s1.posX,
      posY := match lookupParam ps 'Y' with | some v => some v | none => s1.posY,
      posZ := match lookupParam ps 'Z' with | some v => some v | none => s1.posZ }

/-- `ExtruderMonitor.get_status`: builds the status dict from
`_predicted_extrusion_rate`, which also leaves the lookahead queue in its
evicted state. -/
def getStatus (now : ℚ) (s : MonitorState) : ℚ × MonitorState :=
  let r := predictedExtrusionRate now s.lookahead
  (r.1, { s with lookahead := r.2 })

/-! ## G-code interceptor (src/gcode_interceptor.py) -/

/-- A subscriber callback registered with `GCodeInterceptor`; an
exception raised by the Python callback is modelled as `Except.error`. -/
def Subscriber : Type := String → Except String Unit

/-- Running one callback under the interceptor's `try/except`: the
exception is swallowed (logged) and reported here as `false`. -/
def runCallback (cb : Subscriber) (line : String) : Bool :=
  match cb line with
  | Except.ok _ => true
  | Except.error _ => false

/-- `GCodeInterceptor._notify_subscribers`: every callback in the
subscriber list is invoked in order, each inside its own `try/except`. -/
def notifySubscribers (subs : List Subscriber) (line : String) : List Bool :=
  subs.map (fun cb => runCallback cb line)

def newlineStr : String := "\n"

/-- The filter `if line and not line.startswith(';')` applied to each
stripped line in `wrapped_run_script`. -/
def isDeliverable (l : String) : Bool :=
  (decide (l ≠ "")) && (l.front != ';')

/-- The lines that `wrapped_run_script` delivers: split on newlines,
strip, keep the non-empty non-comment lines. -/
def deliveredLines (script : String) : List String :=
  ((script.splitOn newlineStr).map String.trim).filter isDeliverable

/-- `wrapped_run_script`: notify the subscribers for every deliverable
line (recording each callback outcome), then run the original handler on
the unmodified script.  The first component records the deliveries, the
second is the original command's result. -/
def wrappedRunScript {α : Type} (subs : List Subscriber) (original : String → α)
    (script : String) : List (String × List Bool) × α :=
  ((deliveredLines script).map (fun l => (l, notifySubscribers subs l)), original script)

/-! ## Calibration engine

The calibration engine described in spec section 4.5 has no code under
src/ (only the operator-command surface of the spec mentions it), so it
is modelled from the spec. -/

/-- Calibration session state: `active` flag plus the ordered sample
buffer (spec section 3, CalibrationSession). -/
structure CalibrationSession where
  active : Bool
  samples : List Int
deriving DecidableEq

inductive CalibrationResult where
  | insufficient : CalibrationResult
  | baseline (b : Int) : CalibrationResult
deriving DecidableEq

/-- Rational mean of an integer sample list. -/
def qmean (xs : List Int) : ℚ :=
  ((xs.map (fun x => (x : ℚ))).sum) / (xs.length : ℚ)

/-- Modelled from the spec: `finish()` of the Calibration Engine (spec
section 4.5), whose implementation is absent from src/.  With fewer than
3 samples it reports insufficient data and stays active.  Otherwise it
computes the mean; with at least 5 samples it computes the population
variance and re-filters to the samples within 2 sigma of the mean — the
comparison `|x - mean| < 2*sigma` is expressed equivalently as
`(x - mean)^2 < 4*variance` to stay inside ℚ; strictness is forced by
the spec's own example `[10,10,10,10,100] -> 10`, where the outlier sits
exactly at 2 sigma — recomputing the mean from the filtered set if at
least 3 remain; the baseline is the final mean rounded to the nearest
integer, and the session becomes idle. -/
def calibrationFinish (s : CalibrationSession) : CalibrationResult × CalibrationSession :=
  if s.samples.length < 3 then (CalibrationResult.insufficient, s)
  else
    let mean := qmean s.samples
    let finalMean :=
      if 5 ≤ s.samples.length then
        let n : ℚ := (s.samples.length : ℚ)
        let variance := ((s.samples.map (fun x => ((x : ℚ) - mean) ^ 2)).sum) / n
        let filtered : List Int :=
          s.samples.filter (fun x => decide (((x : ℚ) - mean) ^ 2 < 4 * variance))
        if 3 ≤ filtered.length then qmean filtered else mean
      else mean
    (CalibrationResult.baseline (round finalMean), { s with active := false })

/-! ## Session telemetry aggregator (AT_LOG_START / AT_LOG_DATA / AT_LOG_END) -/

/-- The open CSV row log: its path, the data rows written so far and the
number of flush calls issued.  Row values are kept as rationals; the
fixed-point string formatting of the Python `writerow` call is
presentation only. -/
structure LogFile where
  name : String
  rows : List (List ℚ)
  flushes : ℕ
deriving DecidableEq

/-- One `AT_LOG_DATA` sample, i.e. the parameters read by
`cmd_AT_LOG_DATA` (floats as ℚ, `get_int` values as Int). -/
structure Sample where
  temp : ℚ
  target : ℚ
  boost : ℚ
  flow : ℚ
  speed : ℚ
  pwm : ℚ
  pa : ℚ
  z : ℚ
  predicted : ℚ
  dynz : Int
  accel : Int
  fan : Int
  effectiveFlow : ℚ
  flowLimited : Int
  backoffPct : Int
  sustainableFlow : ℚ
deriving DecidableEq

/-- The `_log_stats` dict.  The three heater-capacity keys are created
lazily on the first `AT_LOG_DATA` call, hence `Option`. -/
structure LogStats where
  material : String
  filename : String
  featAutoTemp : Bool
  featDynamicPa : Bool
  featSmartCooling : Bool
  featDynamicZ : Bool
  boostSum : ℚ
  boostMax : ℚ
  boostCount : ℕ
  pwmSum : ℚ
  pwmMax : ℚ
  pwmAt1Count : ℕ
  tempMin : ℚ
  tempMax : ℚ
  tempSum : ℚ
  tempTargetMax : ℚ
  flowSum : ℚ
  flowMax : ℚ
  speedMax : ℚ
  paMin : ℚ
  paMax : ℚ
  paSum : ℚ
  thermalLagSum : ℚ
  thermalLagMax : ℚ
  dynzActiveSamples : ℕ
  accelMin : Int
  fanSum : ℚ
  fanMin : Int
  fanMax : Int
  fanAdjustments : ℕ
  lastFan : Int
  flowLimitedCount : Option ℕ
  backoffPctMax : Option Int
  effectiveFlowSum : Option ℚ
deriving DecidableEq

/-- The `_log_stats` dict as initialised by `cmd_AT_LOG_START`. -/
def initLogStats (material filename : String) (atFlag dynz sc pa : Bool) : LogStats :=
  { material := material, filename := filename,
    featAutoTemp := atFlag, featDynamicPa := pa, featSmartCooling := sc, featDynamicZ := dynz,
    boostSum := 0, boostMax := 0, boostCount := 0,
    pwmSum := 0, pwmMax := 0, pwmAt1Count := 0,
    tempMin := 999, tempMax := 0, tempSum := 0, tempTargetMax := 0,
    flowSum := 0, flowMax := 0, speedMax := 0,
    paMin := 999, paMax := 0, paSum := 0,
    thermalLagSum := 0, thermalLagMax := 0,
    dynzActiveSamples := 0, accelMin := 999999,
    fanSum := 0, fanMin := 100, fanMax := 0, fanAdjustments := 0, lastFan := -1,
    flowLimitedCount := none, backoffPctMax := none, effectiveFlowSum := none }

/-- Boost and PWM statistics update of `cmd_AT_LOG_DATA`. -/
def updBoostPwm (g : Sample) (st : LogStats) : LogStats :=
  { st with
    boostSum := st.boostSum + g.boost,
    boostMax := max st.boostMax g.boost,
    boostCount := st.boostCount + (if 0 < g.boost then 1 else 0),
    pwmSum := st.pwmSum + g.pwm,
    pwmMax := max st.pwmMax g.pwm,
    pwmAt1Count := st.pwmAt1Count + (if (999 / 1000 : ℚ) ≤ g.pwm then 1 else 0) }

/-- Temperature statistics: only tracked when the extruder is hot
(`temp_actual > 50`), plus the target maximum. -/
def updTemp (g : Sample) (st : LogStats) : LogStats :=
  let st :=
    if 50 < g.temp then
      { st with
        tempMin := min st.tempMin g.temp,
        tempMax := max st.tempMax g.temp,
        tempSum := st.tempSum + g.temp }
    else st
  { st with tempTargetMax := max st.tempTargetMax g.target }

/-- Flow and speed statistics. -/
def updFlow (g : Sample) (st : LogStats) : LogStats :=
  { st with
    flowSum := st.flowSum + g.flow,
    flowMax := max st.flowMax g.flow,
    speedMax := max st.speedMax g.speed }

/-- Pressure-advance statistics (only for positive PA values). -/
def updPa (g : Sample) (st : LogStats) : LogStats :=
  if 0 < g.pa then
    { st with
      paMin := min st.paMin g.pa,
      paMax := max st.paMax g.pa,
      paSum := st.paSum + g.pa }
  else st

/-- Thermal-lag statistics (`thermal_lag = temp_target - temp_actual`). -/
def updLag (g : Sample) (st : LogStats) : LogStats :=
  { st with
    thermalLagSum := st.thermalLagSum + (g.target - g.temp),
    thermalLagMax := max st.thermalLagMax (g.target - g.temp) }

/-- DynZ active-sample and minimum-acceleration statistics. -/
def updDynz (g : Sample) (st : LogStats) : LogStats :=
  let st := if g.dynz ≠ 0 then { st with dynzActiveSamples := st.dynzActiveSamples + 1 } else st
  if 0 < g.accel then { st with accelMin := min st.accelMin g.accel } else st

/-- Fan statistics, including the adjustment counter that fires when the
fan percentage moved by at least 3 from the previous sample. -/
def updFan (g : Sample) (st : LogStats) : LogStats :=
  let st := { st with
    fanSum := st.fanSum + (g.fan : ℚ),
    fanMin := min st.fanMin g.fan,
    fanMax := max st.fanMax g.fan }
  let st :=
    if 0 ≤ st.lastFan ∧ 3 ≤ |g.fan - st.lastFan| then
      { st with fanAdjustments := st.fanAdjustments + 1 }
    else st
  { st with lastFan := g.fan }

/-- Heater-capacity statistics; the three keys are created on first use
(`if 'flow_limited_count' not in self._log_stats`). -/
def updHeaterCap (g : Sample) (st : LogStats) : LogStats :=
  { st with
    flowLimitedCount :=
      some (st.flowLimitedCount.getD 0 + (if g.flowLimited ≠ 0 then 1 else 0)),
    backoffPctMax := some (max (st.backoffPctMax.getD 0) g.backoffPct),
    effectiveFlowSum := some (st.effectiveFlowSum.getD 0 + g.effectiveFlow) }

/-- The running-statistics update block of `cmd_AT_LOG_DATA`, applied in
source order. -/
def updateLogStats (st : LogStats) (g : Sample) : LogStats :=
  updHeaterCap g (updFan g (updDynz g (updLag g (updPa g (updFlow g (updTemp g (updBoostPwm g st)))))))

/-- The session-aggregator fields of `ExtruderMonitor`: the open log
file/writer, the session start time, the sample count and the running
stats.  `stats = none` models the empty `_log_stats` dict. -/
structure SessionState where
  logFile : Option LogFile
  writerActive : Bool
  startTime : Option ℚ
  sampleCount : ℕ
  stats : Option LogStats
deriving DecidableEq

/-- The closed/fresh aggregator state, as set by `__init__`. -/
def closedSession : SessionState := ⟨none, false, none, 0, none⟩

/-- The row written by `cmd_AT_LOG_DATA` (numeric values; the Python
code formats them as fixed-point strings). -/
def sampleRow (elapsed : ℚ) (g : Sample) : List ℚ :=
  [elapsed, g.temp, g.target, g.boost, g.flow, g.speed, g.pwm, g.pa, g.z, g.predicted,
   (g.dynz : ℚ), (g.accel : ℚ), (g.fan : ℚ), g.effectiveFlow, (g.flowLimited : ℚ),
   (g.backoffPct : ℚ), g.sustainableFlow]

/-- `ExtruderMonitor.cmd_AT_LOG_DATA`: a no-op when no writer is active;
otherwise append one row, flush immediately, bump the sample count,
update the running stats, and issue a second flush when the new count is
a multiple of 60.  (The writer, file, start time and stats are set and
cleared together by start/end, so only the consistent open shape
occurs.) -/
def cmd_AT_LOG_DATA (s : SessionState) (now : ℚ) (g : Sample) : SessionState :=
  if s.writerActive = false then s
  else
    match s.logFile, s.startTime, s.stats with
    | some f, some t0, some st =>
      let f1 : LogFile :=
        { f with rows := f.rows ++ [sampleRow (now - t0) g], flushes := f.flushes + 1 }
      let count := s.sampleCount + 1
      let st1 := updateLogStats st g
      let f2 := if count % 60 = 0 then { f1 with flushes := f1.flushes + 1 } else f1
      { s with logFile := some f2, sampleCount := count, stats := some st1 }
    | _, _, _ => s

def csvExt : String := ".csv"

def summaryExt : String := "_summary.json"

/-- The summary path derivation `log_path.replace('.csv', '_summary.json')`. -/
def summaryPath (logPath : String) : String := logPath.replace csvExt summaryExt

/-- The console responses issued by `cmd_AT_LOG_END` (abstracting the
message text). -/
inductive EndResponse where
  | noActive : EndResponse
  | ended : EndResponse
  | errorEnding : EndResponse
deriving DecidableEq

/-- Result of a `cmd_AT_LOG_END` call: the new aggregator state, the
responses, and the summary files written. -/
structure EndResult where
  state : SessionState
  responses : List EndResponse
  written : List String
deriving DecidableEq

/-- `ExtruderMonitor.cmd_AT_LOG_END`: with no open log it only reports
that no session is active.  Otherwise the `try` block computes and
writes the summary (only when at least one sample was recorded) and
closes the file; `summaryFails` models an exception raised while
computing or writing the summary, which the `except` clause catches and
reports.  The `finally` clause always clears the file, writer, start
time, sample count and stats. -/
def cmd_AT_LOG_END (s : SessionState) (summaryFails : Bool) : EndResult :=
  match s.logFile with
  | none => ⟨s, [EndResponse.noActive], []⟩
  | some f =>
    if summaryFails then ⟨closedSession, [EndResponse.errorEnding], []⟩
    else if 0 < s.sampleCount then
      ⟨closedSession, [EndResponse.ended], [summaryPath f.name]⟩
    else ⟨closedSession, [], []⟩

/-! ## Helper lemmas about the rate predictor -/

lemma rateTotals_eq (now : ℚ) (q : List Segment) :
    rateTotals now q
      = (((q.filter (segLive now)).map (fun s => |s.e|)).sum,
         ((q.filter (segLive now)).map (fun s => durClamp s.d)).sum) := by
  have h : ∀ (l : List Segment) (a b : ℚ),
      l.foldl (fun t s => if now - s.ts ≤ maxAge then (t.1 + |s.e|, t.2 + durClamp s.d) else t)
          (a, b)
        = (a + ((l.filter (segLive now)).map (fun s => |s.e|)).sum,
           b + ((l.filter (segLive now)).map (fun s => durClamp s.d)).sum) := by
    intro l
    induction l with
    | nil => intro a b; simp
    | cons s l ih =>
      intro a b
      by_cases hc : now - s.ts ≤ maxAge
      · rw [List.foldl_cons, if_pos hc, ih]
        have hl : segLive now s = true := by simp [segLive, hc]
        simp [List.filter_cons, hl, add_assoc]
      · rw [List.foldl_cons, if_neg hc, ih]
        have hl : segLive now s = false := by simp [segLive, hc]
        simp [List.filter_cons, hl]
  rw [rateTotals, h q 0 0]
  simp

lemma filter_evictExpired (now : ℚ) (q : List Segment) :
    (evictExpired now q).filter (segLive now) = q.filter (segLive now) := by
  conv_rhs => rw [← List.takeWhile_append_dropWhile (p := segExpired now) (l := q)]
  rw [List.filter_append]
  have hnil : (q.takeWhile (segExpired now)).filter (segLive now) = [] := by
    rw [List.filter_eq_nil_iff]
    intro a ha
    have hexp := List.mem_takeWhile_imp ha
    simp only [segExpired, decide_eq_true_eq] at hexp
    simp only [segLive, decide_eq_true_eq]
    intro hle
    exact absurd hexp (not_lt.mpr hle)
  rw [hnil, List.nil_append, evictExpired]

lemma evictExpired_isSuffix (now : ℚ) (q : List Segment) :
    List.IsSuffix (evictExpired now q) q :=
  ⟨q.takeWhile (segExpired now), List.takeWhile_append_dropWhile _ _⟩

/-! ## Claim theorems -/

/-- C3, counterexample: the code divides by the sum of the CLAMPED
durations `max(1e-6, d)`, not by the sum of the raw `durationS` values;
for a single live segment of duration 1e-9 the code answers 1e6 while
the claimed formula answers 1e9. -/
theorem predictedRate_unclamped_cex :
    (predictedExtrusionRate 0 [⟨1, 1 / 1000000000, 0⟩]).1
      ≠ specPredictedRate 0 [⟨1, 1 / 1000000000, 0⟩] := by
  have hl : segLive 0 ⟨1, 1 / 1000000000, 0⟩ = true := by
    simp only [segLive, maxAge, decide_eq_true_eq]
    norm_num
  simp only [predictedExtrusionRate, rateTotals_eq, filter_evictExpired, specPredictedRate,
    List.filter_cons, List.filter_nil, hl, if_true, List.map_cons, List.map_nil,
    List.sum_cons, List.sum_nil, List.isEmpty_cons, durClamp]
  have hmax : max ((1 : ℚ) / 1000000) (1 / 1000000000) = 1 / 1000000 := by
    rw [max_eq_left]
    norm_num
  rw [hmax]
  norm_num

/-- C3 (amended): `predictedRate` includes no segment whose age exceeds
the 5.0 s window, and returns the sum of `|extrudedMM|` divided by the
sum of `max(1e-6, durationS)` over the non-expired segments (each
duration clamped below at 1e-6 s), or 0.0 when no segments remain (the
clamped total is then non-positive); inserting one segment and advancing
time past the window makes a subsequent query yield 0.0. -/
theorem predictedRate_spec_clamped :
    (∀ now q, (predictedExtrusionRate now q).1 =
      (if ((q.filter (segLive now)).map (fun s => durClamp s.d)).sum ≤ 0 then 0
       else ((q.filter (segLive now)).map (fun s => |s.e|)).sum
          / ((q.filter (segLive now)).map (fun s => durClamp s.d)).sum))
    ∧ (∀ e d t now, maxAge < now - t →
        (predictedExtrusionRate now [⟨e, d, t⟩]).1 = 0) := by
  constructor
  · intro now q
    simp only [predictedExtrusionRate, rateTotals_eq, filter_evictExpired]
  · intro e d t now h
    have hl : segLive now ⟨e, d, t⟩ = false := by
      simp only [segLive, decide_eq_false_iff_not, not_le]
      exact h
    simp [predictedExtrusionRate, rateTotals_eq, filter_evictExpired, hl]

theorem predictedRate_spec_clamped_witness :
    maxAge < (10 : ℚ) - 0 ∧ (predictedExtrusionRate 10 [⟨1, 1, 0⟩]).1 = 0 :=
  ⟨by norm_num [maxAge], predictedRate_spec_clamped.2 1 1 0 10 (by norm_num [maxAge])⟩

def cexMonitor : MonitorState := { initMonitor with lookahead := [⟨1, 1, 0⟩] }

/-- C1, counterexample: `get_status` is NOT side-effect free on the
lookahead queue — querying at time 10 a queue holding one segment
inserted at time 0 evicts the (expired) segment, so the queue differs
before and after the call. -/
theorem getStatus_mutates_queue_cex :
    ((getStatus 10 cexMonitor).2).lookahead ≠ cexMonitor.lookahead := by
  have hx : segExpired 10 ⟨1, 1, 0⟩ = true := by
    simp only [segExpired, maxAge, decide_eq_true_eq]
    norm_num
  simp [getStatus, predictedExtrusionRate, cexMonitor, initMonitor, evictExpired, hx]

/-- C1 (amended): `get_status` never adds or modifies segments and
leaves every other field of the engine state unchanged, but it may drop
expired segments (age strictly over 5 s) from the front of the lookahead
queue as a side effect; the remaining queue is exactly a suffix of the
original consisting of everything after the evicted prefix. -/
theorem getStatus_evicts_only_expired (now : ℚ) (s : MonitorState) :
    (∃ dropped, s.lookahead = dropped ++ ((getStatus now s).2).lookahead
        ∧ ∀ x ∈ dropped, maxAge < now - x.ts)
    ∧ ((getStatus now s).2).recentRates = s.recentRates
    ∧ ((getStatus now s).2).posX = s.posX
    ∧ ((getStatus now s).2).posY = s.posY
    ∧ ((getStatus now s).2).posZ = s.posZ
    ∧ ((getStatus now s).2).lastE = s.lastE
    ∧ ((getStatus now s).2).lastF = s.lastF
    ∧ ((getStatus now s).2).relativeExtrusion = s.relativeExtrusion := by
  refine ⟨⟨(s.lookahead).takeWhile (segExpired now), ?_, ?_⟩,
    rfl, rfl, rfl, rfl, rfl, rfl, rfl⟩
  · show s.lookahead
      = s.lookahead.takeWhile (segExpired now) ++ s.lookahead.dropWhile (segExpired now)
    exact (List.takeWhile_append_dropWhile _ _).symm
  · intro x hx
    have hexp := List.mem_takeWhile_imp hx
    simpa [segExpired] using hexp

/-- C9: every segment stored in the lookahead queue has strictly
positive duration — insertion rejects (silently drops) non-positive
durations and otherwise appends the new segment unchanged; clearing
empties the queue; the predictor only removes segments from the front (a
suffix survives, no segment is modified); and the live G-code parse path
preserves the invariant. -/
theorem lookahead_duration_invariant :
    (∀ q e d now, d ≤ 0 → addLookaheadSegment q e d now = q)
    ∧ (∀ q e d now, 0 < d → addLookaheadSegment q e d now = q ++ [⟨e, d, now⟩])
    ∧ (∀ q e d now, (∀ x ∈ q, 0 < x.d) → ∀ x ∈ addLookaheadSegment q e d now, 0 < x.d)
    ∧ (∀ q, clearLookahead q = [])
    ∧ (∀ now q, List.IsSuffix ((predictedExtrusionRate now q).2) q)
    ∧ (∀ now q, (∀ x ∈ q, 0 < x.d) → ∀ x ∈ (predictedExtrusionRate now q).2, 0 < x.d)
    ∧ (∀ sq now s g, (∀ x ∈ s.lookahead, 0 < x.d) →
        ∀ x ∈ (parseGcodeMove sq now s g).lookahead, 0 < x.d) := by
  have hadd : ∀ (q : List Segment) (e d now : ℚ), (∀ x ∈ q, 0 < x.d) →
      ∀ x ∈ addLookaheadSegment q e d now, 0 < x.d := by
    intro q e d now hq x hx
    by_cases hd : d ≤ 0
    · rw [addLookaheadSegment, if_pos hd] at hx
      exact hq x hx
    · rw [addLookaheadSegment, if_neg hd] at hx
      rcases List.mem_append.mp hx with h | h
      · exact hq x h
      · rcases List.mem_singleton.mp h with rfl
        exact not_le.mp hd
  have hsuf : ∀ (now : ℚ) (q : List Segment),
      List.IsSuffix ((predictedExtrusionRate now q).2) q := by
    intro now q
    exact evictExpired_isSuffix now q
  refine ⟨?_, ?_, hadd, fun _ => rfl, hsuf, ?_, ?_⟩
  · intro q e d now hd
    rw [addLookaheadSegment, if_pos hd]
  · intro q e d now hd
    rw [addLookaheadSegment, if_neg (not_le.mpr hd)]
  · intro now q hq x hx
    exact hq x ((hsuf now q).sublist.subset hx)
  · intro sq now s g hq
    cases g with
    | m82 => exact hq
    | m83 => exact hq
    | move ps =>
      show ∀ x ∈ (parseGcodeMove sq now s (GLine.move ps)).lookahead, 0 < x.d
      simp only [parseGcodeMove]
      cases hE : lookupParam ps 'E' with
      | none => simpa using hq
      | some e =>
        by_cases hdel : 0 < extrusionDelta s.relativeExtrusion s.lastE e
        · simpa [hdel] using hadd s.lookahead _ _ now hq
        · simpa [hdel] using hq

theorem lookahead_duration_invariant_witness :
    ((-1 : ℚ) ≤ 0 ∧ addLookaheadSegment [] 2 (-1) 0 = [])
    ∧ ((0 : ℚ) < 3 ∧ addLookaheadSegment [] 2 3 0 = [] ++ [⟨2, 3, 0⟩]) :=
  ⟨⟨by norm_num, lookahead_duration_invariant.1 [] 2 (-1) 0 (by norm_num)⟩,
   ⟨by norm_num, lookahead_duration_invariant.2.1 [] 2 3 0 (by norm_num)⟩⟩

/-- Characterization of one `_parse_gcode_move` step on a move line that
carries an E parameter: the resulting state componentwise. -/
lemma parseMove_eq (sq : ℚ → ℚ) (now : ℚ) (s : MonitorState) (ps : List (Char × ℚ)) (e : ℚ)
    (hE : lookupParam ps 'E' = some e) :
    parseGcodeMove sq now s (GLine.move ps) =
      { lookahead :=
          if 0 < extrusionDelta s.relativeExtrusion s.lastE e then
            addLookaheadSegment s.lookahead (extrusionDelta s.relativeExtrusion s.lastE e)
              (moveDuration ((lookupParam ps 'F').orElse (fun _ => s.lastF)) (moveDist sq s ps)
                (extrusionDelta s.relativeExtrusion s.lastE e)) now
          else s.lookahead,
        recentRates :=
          if 0 < extrusionDelta s.relativeExtrusion s.lastE e then
            appendRate s.recentRates
              (|extrusionDelta s.relativeExtrusion s.lastE e| /
                max (1 / 1000000)
                  (moveDuration ((lookupParam ps 'F').orElse (fun _ => s.lastF))
                    (moveDist sq s ps) (extrusionDelta s.relativeExtrusion s.lastE e)))
          else s.recentRates,
        posX := match lookupParam ps 'X' with | some v => some v | none => s.posX,
        posY := match lookupParam ps 'Y' with | some v => some v | none => s.posY,
        posZ := match lookupParam ps 'Z' with | some v => some v | none => s.posZ,
        lastE := some e,
        lastF := match lookupParam ps 'F' with | some f => some f | none => s.lastF,
        relativeExtrusion := s.relativeExtrusion } := by
  simp only [parseGcodeMove, hE]
  by_cases hdel : 0 < extrusionDelta s.relativeExtrusion s.lastE e
  · simp [hdel]
  · simp [hdel]

/-- Square-root stand-in for concrete examples that involve no motion:
every distance-squared reaching it is 0. -/
def exSqrt : ℚ → ℚ := fun _ => 0

/-- Monitor state after an M83-equivalent line. -/
def exAfterM83 : MonitorState := parseGcodeMove exSqrt 0 initMonitor GLine.m83

/-- ... then a move carrying `E=2`. -/
def exAfterE2 : MonitorState := parseGcodeMove exSqrt 0 exAfterM83 (GLine.move [('E', 2)])

/-- ... then a move carrying `E=1.5`. -/
def exAfterE15 : MonitorState := parseGcodeMove exSqrt 0 exAfterE2 (GLine.move [('E', 3 / 2)])

/-- C5: the extrusion delta is the supplied E value in relative mode,
`current - lastKnown` in absolute mode with a prior value, and the full
supplied value in absolute mode with no prior value; the parse pipeline
pushes exactly that delta (when positive) as the new segment; and after
an M83-equivalent, moves with E=2 then E=1.5 yield deltas 2.0 then 1.5
(the two queued segments carry those extrusion amounts). -/
theorem extrusionDelta_spec :
    (∀ (lastE : Option ℚ) (e : ℚ), extrusionDelta true lastE e = e)
    ∧ (∀ l e : ℚ, extrusionDelta false (some l) e = e - l)
    ∧ (∀ e : ℚ, extrusionDelta false none e = e)
    ∧ (∀ (sq : ℚ → ℚ) (now : ℚ) (s : MonitorState) (ps : List (Char × ℚ)) (e : ℚ),
        lookupParam ps 'E' = some e →
        (parseGcodeMove sq now s (GLine.move ps)).lookahead =
          (if 0 < extrusionDelta s.relativeExtrusion s.lastE e then
            addLookaheadSegment s.lookahead (extrusionDelta s.relativeExtrusion s.lastE e)
              (moveDuration ((lookupParam ps 'F').orElse (fun _ => s.lastF)) (moveDist sq s ps)
                (extrusionDelta s.relativeExtrusion s.lastE e)) now
          else s.lookahead))
    ∧ exAfterE15.lookahead.map Segment.e = [2, 3 / 2] := by
  refine ⟨fun lastE e => rfl, fun l e => rfl, fun e => rfl, ?_, ?_⟩
  · intro sq now s ps e hE
    rw [parseMove_eq sq now s ps e hE]
  · have h1 : exAfterM83 = { initMonitor with relativeExtrusion := true } := rfl
    have hlE2 : lookupParam [('E', (2 : ℚ))] 'E' = some 2 := rfl
    have hlF2 : lookupParam [('E', (2 : ℚ))] 'F' = none := rfl
    have hlX2 : lookupParam [('E', (2 : ℚ))] 'X' = none := rfl
    have hlY2 : lookupParam [('E', (2 : ℚ))] 'Y' = none := rfl
    have hlZ2 : lookupParam [('E', (2 : ℚ))] 'Z' = none := rfl
    have h2 : exAfterE2 =
        { lookahead := [⟨2, 2, 0⟩], recentRates := [1], posX := none, posY := none,
          posZ := none, lastE := some 2, lastF := none, relativeExtrusion := true } := by
      have habs2 : |(2 : ℚ)| = 2 := abs_of_pos (by norm_num)
      rw [exAfterE2, parseMove_eq exSqrt 0 exAfterM83 [('E', 2)] 2 hlE2, h1]
      simp only [initMonitor, hlF2, hlX2, hlY2, hlZ2]
      norm_num [extrusionDelta, moveDuration, durFallback, addLookaheadSegment,
        appendRate, Option.orElse, habs2, max_def]
    have hlE15 : lookupParam [('E', (3 / 2 : ℚ))] 'E' = some (3 / 2) := rfl
    have hlF15 : lookupParam [('E', (3 / 2 : ℚ))] 'F' = none := rfl
    have hlX15 : lookupParam [('E', (3 / 2 : ℚ))] 'X' = none := rfl
    have hlY15 : lookupParam [('E', (3 / 2 : ℚ))] 'Y' = none := rfl
    have hlZ15 : lookupParam [('E', (3 / 2 : ℚ))] 'Z' = none := rfl
    have h3 : exAfterE15.lookahead = [⟨2, 2, 0⟩, ⟨3 / 2, 3 / 2, 0⟩] := by
      have habs15 : |(3 : ℚ) / 2| = 3 / 2 := abs_of_pos (by norm_num)
      rw [exAfterE15, parseMove_eq exSqrt 0 exAfterE2 [('E', 3 / 2)] (3 / 2) hlE15, h2]
      simp only [hlF15]
      norm_num [extrusionDelta, moveDuration, durFallback, addLookaheadSegment,
        Option.orElse, habs15, max_def]
    rw [h3]
    rfl

theorem extrusionDelta_spec_witness :
    lookupParam [('E', (2 : ℚ))] 'E' = some 2
    ∧ (parseGcodeMove exSqrt 0 initMonitor (GLine.move [('E', 2)])).lookahead =
        (if 0 < extrusionDelta initMonitor.relativeExtrusion initMonitor.lastE 2 then
          addLookaheadSegment initMonitor.lookahead
            (extrusionDelta initMonitor.relativeExtrusion initMonitor.lastE 2)
            (moveDuration ((lookupParam [('E', (2 : ℚ))] 'F').orElse (fun _ => initMonitor.lastF))
              (moveDist exSqrt initMonitor [('E', 2)])
              (extrusionDelta initMonitor.relativeExtrusion initMonitor.lastE 2)) 0
        else initMonitor.lookahead) :=
  ⟨rfl, extrusionDelta_spec.2.2.2.1 exSqrt 0 initMonitor [('E', 2)] 2 rfl⟩

/-- Square-root stand-in exact on the perfect square 100 reached by the
counterexample move. -/
def sq100 : ℚ → ℚ := fun q => if q = 100 then 10 else 0

def cexPosState : MonitorState := { initMonitor with posX := some 0 }

def cexMoveParams : List (Char × ℚ) := [('X', 10), ('E', 1), ('F', -60)]

/-- C7, counterexample: a parsed move with extrusion, distance 10 and a
feed rate of -60 (present on the line) gets duration
`10 * 60 / (-60) = -10`, which is NOT strictly positive; and with a feed
rate of 0 present the code takes the fallback rather than the claimed
formula.  The negative-duration segment is then silently dropped at
insertion (the queue stays empty). -/
theorem moveDuration_negative_feed_cex :
    moveDuration (some (-60)) 10 1 = -10
    ∧ moveDuration (some 0) 10 1 = durFallback 1
    ∧ durFallback 1 = 1
    ∧ (parseGcodeMove sq100 0 cexPosState (GLine.move cexMoveParams)).lookahead = [] := by
  refine ⟨?_, ?_, ?_, ?_⟩
  · norm_num [moveDuration]
  · norm_num [moveDuration]
  · norm_num [durFallback]
  · have hE : lookupParam cexMoveParams 'E' = some 1 := rfl
    have hF : lookupParam cexMoveParams 'F' = some (-60) := rfl
    have hX : lookupParam cexMoveParams 'X' = some 10 := rfl
    have hY : lookupParam cexMoveParams 'Y' = none := rfl
    have hZ : lookupParam cexMoveParams 'Z' = none := rfl
    have hdist : moveDist sq100 cexPosState cexMoveParams = 10 := by
      simp only [moveDist, hX, hY, hZ, cexPosState, initMonitor, Option.orElse, axisDelta]
      norm_num [sq100]
    have hrelc : cexPosState.relativeExtrusion = false := rfl
    have hlastEc : cexPosState.lastE = none := rfl
    have hlastFc : cexPosState.lastF = none := rfl
    have hlookc : cexPosState.lookahead = [] := rfl
    rw [parseMove_eq sq100 0 cexPosState cexMoveParams 1 hE]
    simp only [hdist, hF, hrelc, hlastEc, hlastFc, hlookc, Option.orElse]
    norm_num [extrusionDelta, moveDuration, durFallback, addLookaheadSegment, max_def]

/-- C7 (amended): with a present NON-ZERO feed rate (Python truthiness:
`if feed and dist > 0.0`) and distance > 0 the duration is
`distance * 60 / feedRate`; in every other case (no feed rate, zero feed
rate, or non-positive distance) it is `max(0.001, |deltaE|)`; no
division by zero occurs, the fallback is always strictly positive, and
the formula result is strictly positive whenever the feed rate is
positive — a negative feed rate instead yields a negative duration,
whose segment the insertion then rejects. -/
theorem moveDuration_spec :
    (∀ f dist dE : ℚ, f ≠ 0 → 0 < dist → moveDuration (some f) dist dE = dist * 60 / f)
    ∧ (∀ dist dE : ℚ, moveDuration none dist dE = durFallback dE)
    ∧ (∀ dist dE : ℚ, moveDuration (some 0) dist dE = durFallback dE)
    ∧ (∀ f dist dE : ℚ, dist ≤ 0 → moveDuration (some f) dist dE = durFallback dE)
    ∧ (∀ dE : ℚ, 0 < durFallback dE)
    ∧ (∀ f dist dE : ℚ, 0 < f → 0 < dist → 0 < moveDuration (some f) dist dE) := by
  have hfb : ∀ dE : ℚ, 0 < durFallback dE := by
    intro dE
    calc (0 : ℚ) < 1 / 1000 := by norm_num
    _ ≤ durFallback dE := le_max_left _ _
  refine ⟨?_, fun dist dE => rfl, ?_, ?_, hfb, ?_⟩
  · intro f dist dE hf hd
    rw [moveDuration, if_pos ⟨hf, hd⟩]
  · intro dist dE
    rw [moveDuration, if_neg]
    intro hcon
    exact hcon.1 rfl
  · intro f dist dE hd
    rw [moveDuration, if_neg]
    intro hcon
    exact absurd hcon.2 (not_lt.mpr hd)
  · intro f dist dE hf hd
    rw [moveDuration, if_pos ⟨ne_of_gt hf, hd⟩]
    positivity

theorem moveDuration_spec_witness :
    (2 : ℚ) ≠ 0 ∧ (0 : ℚ) < 5 ∧ moveDuration (some 2) 5 1 = 5 * 60 / 2 :=
  ⟨by norm_num, by norm_num, moveDuration_spec.1 2 5 1 (by norm_num) (by norm_num)⟩

/-- C6: every deliverable line of an incoming script (non-empty,
non-comment after stripping) is passed to every registered subscriber in
subscription order — the outcome list has one entry per subscriber and
its i-th entry is determined by the i-th subscriber alone; a subscriber
exception is caught (recorded as a `false` outcome) and does not prevent
delivery to the remaining subscribers; and the original command still
executes on the unmodified script. -/
theorem interceptor_delivery_spec :
    (∀ subs line, (notifySubscribers subs line).length = subs.length)
    ∧ (∀ subs line i (h1 : i < (notifySubscribers subs line).length) (h2 : i < subs.length),
        (notifySubscribers subs line).get ⟨i, h1⟩ = runCallback (subs.get ⟨i, h2⟩) line)
    ∧ (∀ pre post (cb : Subscriber) line msg, cb line = Except.error msg →
        notifySubscribers (pre ++ cb :: post) line
          = notifySubscribers pre line ++ false :: notifySubscribers post line)
    ∧ (∀ (α : Type) (subs : List Subscriber) (original : String → α) (script : String),
        (wrappedRunScript subs original script).2 = original script
        ∧ (wrappedRunScript subs original script).1
            = (deliveredLines script).map (fun l => (l, notifySubscribers subs l))) := by
  refine ⟨?_, ?_, ?_, fun α subs original script => ⟨rfl, rfl⟩⟩
  · intro subs line
    simp [notifySubscribers]
  · intro subs line i h1 h2
    simp [notifySubscribers]
  · intro pre post cb line msg herr
    simp [notifySubscribers, runCallback, herr]

def errBoom : String := "boom"

def okSub : Subscriber := fun _ => Except.ok ()

def badSub : Subscriber := fun _ => Except.error errBoom

def exLine : String := "G1 X0 E1"

theorem interceptor_delivery_spec_witness :
    badSub exLine = Except.error errBoom
    ∧ notifySubscribers ([okSub] ++ badSub :: [okSub]) exLine
        = notifySubscribers [okSub] exLine ++ false :: notifySubscribers [okSub] exLine :=
  ⟨rfl, interceptor_delivery_spec.2.2.1 [okSub] [okSub] badSub exLine errBoom rfl⟩

/-- C4 (spec-modelled, the calibration engine has no code under src/):
`finish()` with fewer than 3 samples reports insufficient data and
leaves the session state (in particular its active flag) unchanged; and
on the samples [10, 10, 10, 10, 100] the 2-sigma refilter removes the
outlier 100 and the resulting baseline is 10, with the session
transitioning to idle. -/
theorem calibrationFinish_spec :
    (∀ s : CalibrationSession, s.samples.length < 3 →
        calibrationFinish s = (CalibrationResult.insufficient, s))
    ∧ calibrationFinish ⟨true, [10, 10, 10, 10, 100]⟩
        = (CalibrationResult.baseline 10, ⟨false, [10, 10, 10, 10, 100]⟩) := by
  constructor
  · intro s h
    rw [calibrationFinish, if_pos h]
  · have hmean : qmean [10, 10, 10, 10, 100] = 28 := by
      norm_num [qmean]
    rw [calibrationFinish]
    rw [if_neg (by norm_num), hmean]
    norm_num [qmean, round_eq]

def cexShortCalib : CalibrationSession := ⟨true, [7, 9]⟩

theorem calibrationFinish_spec_witness :
    cexShortCalib.samples.length < 3
    ∧ calibrationFinish cexShortCalib = (CalibrationResult.insufficient, cexShortCalib) :=
  ⟨by norm_num [cexShortCalib], calibrationFinish_spec.1 cexShortCalib (by norm_num [cexShortCalib])⟩

def matPLA : String := "PLA"

def fnBenchy : String := "benchy.gcode"

def exLogName : String := "20260101_000000_benchy.gcode.csv"

def exStats : LogStats := initLogStats matPLA fnBenchy true true true true

def exLogFile : LogFile := ⟨exLogName, [], 0⟩

def exOpenSession : SessionState := ⟨some exLogFile, true, some 0, 0, some exStats⟩

def exSample : Sample := ⟨200, 210, 5, 10, 100, 1 / 2, 1 / 20, 1, 12, 0, 3000, 50, 10, 0, 0, 11⟩

/-- C2, counterexample: recording the very first sample of a session
already flushes the row log (the code flushes after every `writerow`,
with a second flush each 60th sample), refuting "flushes only once every
60 samples, not on every row": after one record the flush count is 1
although 1 is not a multiple of 60. -/
theorem logData_flushes_first_row_cex :
    (cmd_AT_LOG_DATA exOpenSession 1 exSample).sampleCount = 1
    ∧ ((cmd_AT_LOG_DATA exOpenSession 1 exSample).logFile.map LogFile.flushes) = some 1
    ∧ (1 : ℕ) % 60 ≠ 0 := by
  refine ⟨rfl, ?_, by decide⟩
  have h60 : ¬((0 : ℕ) + 1) % 60 = 0 := by decide
  simp only [cmd_AT_LOG_DATA, exOpenSession, exLogFile]
  rw [if_neg (by decide)]
  simp [h60]

/-- C2 (amended): during an open telemetry session the record operation
flushes the row log on EVERY sample — appending exactly one row and one
flush — and issues one additional flush when the incremented sample
count is a multiple of 60 (so a 60th sample produces two flushes); the
sample count increments by one and the running stats are updated. -/
theorem logData_flush_per_row (s : SessionState) (now : ℚ) (g : Sample)
    (f : LogFile) (t0 : ℚ) (st : LogStats) (hw : s.writerActive = true)
    (hf : s.logFile = some f) (ht : s.startTime = some t0) (hs : s.stats = some st) :
    (cmd_AT_LOG_DATA s now g).logFile
      = some ⟨f.name, f.rows ++ [sampleRow (now - t0) g],
              f.flushes + (if (s.sampleCount + 1) % 60 = 0 then 2 else 1)⟩
    ∧ (cmd_AT_LOG_DATA s now g).sampleCount = s.sampleCount + 1
    ∧ (cmd_AT_LOG_DATA s now g).stats = some (updateLogStats st g) := by
  rw [cmd_AT_LOG_DATA, if_neg (by simp [hw]), hf, ht, hs]
  by_cases h60 : (s.sampleCount + 1) % 60 = 0
  · refine ⟨?_, rfl, rfl⟩
    show some _ = some _
    rw [if_pos h60, if_pos h60]
  · refine ⟨?_, rfl, rfl⟩
    show some _ = some _
    rw [if_neg h60, if_neg h60]

theorem logData_flush_per_row_witness :
    exOpenSession.writerActive = true
    ∧ exOpenSession.logFile = some exLogFile
    ∧ exOpenSession.startTime = some 0
    ∧ exOpenSession.stats = some exStats
    ∧ (cmd_AT_LOG_DATA exOpenSession 1 exSample).sampleCount = exOpenSession.sampleCount + 1 :=
  ⟨rfl, rfl, rfl, rfl,
    (logData_flush_per_row exOpenSession 1 exSample exLogFile 0 exStats rfl rfl rfl rfl).2.1⟩

/-- C8: `AT_LOG_END` with no open session reports "no active logging
session" and is a no-op (state unchanged, nothing written); consequently
a second `finish()` after any `finish()` — which always leaves the
session closed — is again a no-op with no file writes, for every
outcome of the first call's summary write. -/
theorem logEnd_closed_noop :
    (∀ (s : SessionState) (b : Bool), s.logFile = none →
        cmd_AT_LOG_END s b = ⟨s, [EndResponse.noActive], []⟩)
    ∧ (∀ (s : SessionState) (b1 b2 : Bool),
        cmd_AT_LOG_END ((cmd_AT_LOG_END s b1).state) b2
          = ⟨(cmd_AT_LOG_END s b1).state, [EndResponse.noActive], []⟩) := by
  have hclosed : ∀ (s : SessionState) (b : Bool), s.logFile = none →
      cmd_AT_LOG_END s b = ⟨s, [EndResponse.noActive], []⟩ := by
    intro s b h
    rw [cmd_AT_LOG_END]
    cases hcase : s.logFile with
    | none => rfl
    | some f => rw [h] at hcase; exact absurd hcase (Option.noConfusion)
  refine ⟨hclosed, ?_⟩
  intro s b1 b2
  apply hclosed
  rw [cmd_AT_LOG_END]
  cases hcase : s.logFile with
  | none => exact hcase
  | some f =>
    by_cases hb : b1 = true
    · simp [hb, closedSession]
    · by_cases hc : 0 < s.sampleCount
      · simp [hb, hc, closedSession]
      · simp [hb, hc, closedSession]

theorem logEnd_closed_noop_witness :
    closedSession.logFile = none
    ∧ cmd_AT_LOG_END closedSession false = ⟨closedSession, [EndResponse.noActive], []⟩ :=
  ⟨rfl, logEnd_closed_noop.1 closedSession false rfl⟩

/-- C10: `AT_LOG_END` on an open session always returns the aggregator
to the fresh closed state — whether or not computing/writing the summary
raises — because the `finally` clause clears the file handle, writer,
start time, sample count and running stats; the resulting state is
exactly the `__init__` state `closedSession`, so subsequent calls behave
as from a fresh closed aggregator. -/
theorem logEnd_always_resets (s : SessionState) (f : LogFile) (b : Bool)
    (h : s.logFile = some f) : (cmd_AT_LOG_END s b).state = closedSession := by
  rw [cmd_AT_LOG_END]
  cases hcase : s.logFile with
  | none => rw [h] at hcase; exact absurd hcase (Option.noConfusion)
  | some f2 =>
    by_cases hb : b = true
    · simp [hb]
    · by_cases hc : 0 < s.sampleCount
      · simp [hb, hc]
      · simp [hb, hc]

theorem logEnd_always_resets_witness :
    exOpenSession.logFile = some exLogFile
    ∧ (cmd_AT_LOG_END exOpenSession true).state = closedSession :=
  ⟨rfl, logEnd_always_resets exOpenSession exLogFile true rfl⟩

end AdaptiveFlow
